import Mathlib

/-
Verification of the access-decision and event-ordering engine of the
Subdivision-tracking-system repository (Node.js RFID access server).

The embedding below is a shallow model of the server variants:
  * src/unnamed/part_000 — primary variant (cooldownTime = 180000,
    ping filtering on the access channels, callback-chained Firestore calls);
  * src/unnamed/part_001 — secondary variant (async/await, while-loop retry);
  * src/serverfixing.js — shares isValidUID / logToFirebase with part_000.

Pure JS string operations (trim, toLowerCase, the /^[0-9A-F]{8}$/i regex,
String.prototype.includes) are modelled as structural functions on the
character list of the string.  Firestore (the resident store) is external:
its behaviour is an input to each modelled function — a get result, a
per-attempt outcome schedule, or success flags for audit writes.  Serial
output is modelled as the list of response strings handed to
writeToSerialPort.  Timestamps (Date.now()) are integers.
-/

/-- JS whitespace for String.prototype.trim: space, tab, LF, CR, VT, FF, NBSP. -/
def isJsSpace (c : Char) : Bool :=
  c == ' ' || c == '\t' || c == '\n' || c == '\r' ||
    c.toNat == 11 || c.toNat == 12 || c.toNat == 160

/-- ASCII lower-casing of one character (JS toLowerCase on the payloads in scope). -/
def charToLower (c : Char) : Char :=
  if 65 ≤ c.toNat && c.toNat ≤ 90 then Char.ofNat (c.toNat + 32) else c

/-- JS String.prototype.trim: strip leading and trailing whitespace. -/
def jsTrim (s : String) : String :=
  ⟨((s.data.dropWhile isJsSpace).reverse.dropWhile isJsSpace).reverse⟩

/-- JS String.prototype.toLowerCase (ASCII range). -/
def jsToLower (s : String) : String :=
  ⟨s.data.map charToLower⟩

/-- One character of the class [0-9A-Fa-f]. -/
def isHexDigitCI (c : Char) : Bool :=
  (48 ≤ c.toNat && c.toNat ≤ 57) || (65 ≤ c.toNat && c.toNat ≤ 70) ||
    (97 ≤ c.toNat && c.toNat ≤ 102)

/-- `isValidUID` (part_000 / part_001 / serverfixing.js): the case-insensitive
regex test /^[0-9A-F]\x7b8\x7d$/i — exactly eight hex characters. -/
def isValidUID (uid : String) : Bool :=
  uid.data.length == 8 && uid.data.all isHexDigitCI

/-- `isPingResponse` (part_000): the test that data.trim().toLowerCase() equals "ping". -/
def isPingResponse (data : String) : Bool :=
  jsToLower (jsTrim data) == "ping"

/-- Classification of one raw serial line by the input filtering at the top of
`handleReaderData` (part_000): liveness echo, valid tag, or invalid payload. -/
inductive ValidateResult
  | ping
  | tag (uid : String)
  | invalid
deriving DecidableEq

/-- Input filtering of `handleReaderData` (part_000): the ping check runs first,
then the payload is trimmed and tested by `isValidUID`; a valid payload is used
verbatim (trimmed, never case-normalised) as the tag. -/
def validate (data : String) : ValidateResult :=
  if isPingResponse data then .ping
  else if isValidUID (jsTrim data) then .tag (jsTrim data)
  else .invalid

/-- `cooldownTime` of part_000 / serverfixing.js (milliseconds). -/
def cooldownTime : Int := 180000

/-- A per-channel cooldown map (`cooldownCache…` object): tag to the timestamp
recorded when the tag was last dequeued for resolution. -/
def CooldownCache := String → Option Int

/-- Per-channel mutable state: the pending queue and the cooldown map. -/
structure ChannelState where
  queue : List String
  cooldown : CooldownCache

/-- The cooldown half of the admission test (part_000 `handleReaderData`):
`!cooldownCache[uid] || currentTime - cooldownCache[uid] >= cooldownTime`.
A recorded value of 0 is falsy in JS, hence the `t == 0` disjunct. -/
def cooldownOk (rec : Option Int) (now : Int) : Bool :=
  match rec with
  | none => true
  | some t => t == 0 || decide (cooldownTime ≤ now - t)

/-- The full admission test of `handleReaderData` (part_000):
`!queue.includes(uid) && (!cooldownCache[uid] || now - cooldownCache[uid] >= cooldownTime)`. -/
def admitCheck (st : ChannelState) (uid : String) (now : Int) : Bool :=
  !st.queue.contains uid && cooldownOk (st.cooldown uid) now

/-- The Cooldown Gate step of `handleReaderData`: on admission the tag is
pushed onto the pending queue; on rejection the state is unchanged. -/
def cooldownGate (st : ChannelState) (uid : String) (now : Int) :
    ChannelState × Bool :=
  if admitCheck st uid now then
    ({ st with queue := st.queue ++ [uid] }, true)
  else (st, false)

/-- Value of the `assigned` field of a resident document as the JS code can
observe it: the literals true and false, an absent field (undefined), or any
other truthy or falsy value. -/
inductive JSVal
  | bTrue
  | bFalse
  | undef
  | otherTruthy
  | otherFalsy
deriving DecidableEq

/-- A resident document; the core only reads its `assigned` field. -/
structure ResidentRecord where
  assigned : JSVal
deriving DecidableEq

/-- Outcome of one Firestore get attempt: a document (present or absent), or a
rejected promise. -/
inductive AttemptResult
  | ok (doc : Option ResidentRecord)
  | err
deriving DecidableEq

/-- Result of `fetchResidentDataWithRetry`: resident data (none when the
document does not exist) or an error surfaced after exhausting retries. -/
inductive FetchResult
  | success (doc : Option ResidentRecord)
  | storeError
deriving DecidableEq

/-- `fetchResidentDataWithRetry` of part_000, with the number of get calls
performed.  The JS recursion retries while `attempt < retries`; here
`remaining = retries - attempt` drives the structural recursion, `attempt`
indexes the schedule of attempt outcomes.  The returned count is the total
number of get calls made. -/
def tryFetchingGo (attempts : Nat → AttemptResult) (attempt remaining : Nat) :
    FetchResult × Nat :=
  match attempts attempt with
  | .ok doc => (.success doc, attempt + 1)
  | .err =>
    match remaining with
    | 0 => (.storeError, attempt + 1)
    | r + 1 => tryFetchingGo attempts (attempt + 1) r

/-- `fetchResidentDataWithRetry(uid, retries = 3)` of part_000: one initial
attempt plus up to `retries` re-attempts, no delay between attempts. -/
def fetchResidentDataWithRetry (attempts : Nat → AttemptResult)
    (retries : Nat) : FetchResult × Nat :=
  tryFetchingGo attempts 0 retries

/-- `fetchResidentDataWithRetry(uid, retries = 3)` of part_001: a while loop
running while `attempt < retries`, rethrowing when `attempt` reaches `retries`
after an increment — so at most `retries` total attempts.  If the loop is
never entered (retries = 0) the JS function returns undefined, modelled as
`.success none`.  `remaining = retries - attempt` drives the recursion. -/
def fetchLoopV1Go (attempts : Nat → AttemptResult) (retries attempt remaining : Nat) :
    FetchResult × Nat :=
  match remaining with
  | 0 => (.success none, attempt)
  | r + 1 =>
    match attempts attempt with
    | .ok doc => (.success doc, attempt + 1)
    | .err =>
      if attempt + 1 == retries then (.storeError, attempt + 1)
      else fetchLoopV1Go attempts retries (attempt + 1) r

/-- Entry point of the part_001 retry loop. -/
def fetchResidentDataWithRetryV1 (attempts : Nat → AttemptResult)
    (retries : Nat) : FetchResult × Nat :=
  fetchLoopV1Go attempts retries 0 retries

/-- One successful Firestore document write, identified by collection name and
document key. -/
structure AuditWrite where
  collection : String
  key : String
deriving DecidableEq

/-- Does the character list start with the pattern? -/
def startsWithChars : List Char → List Char → Bool
  | _, [] => true
  | [], _ :: _ => false
  | a :: l, b :: p => a == b && startsWithChars l p

/-- Does the pattern occur contiguously anywhere in the character list? -/
def includesChars : List Char → List Char → Bool
  | [], pat => startsWithChars [] pat
  | a :: l, pat => startsWithChars (a :: l) pat || includesChars l pat

/-- JS String.prototype.includes(pat). -/
def includesStr (s pat : String) : Bool :=
  includesChars s.data pat.data

/-- The per-direction latest-accepted collection chosen by `logToFirebase`:
the ternary on `mode.includes` of "Entry", picking latest_accepted_entry_log or latest_exit_log. -/
def logCollection (mode : String) : String :=
  if includesStr mode "Entry" then "latest_accepted_entry_log" else "latest_exit_log"

/-- `logToFirebase` of part_000 / serverfixing.js.  `firstOk` / `secondOk` say
whether the all-events write and the conditional follow-up write succeed.
Returns the successful writes, and whether the catch handler of the function
itself fired (logged and swallowed, never rethrown).  Only a failure of the
first write reaches that catch: the conditional second write inside the then
handler is never chained, so its rejection is unhandled — invisible to the
catch and to the caller alike. -/
def logToFirebase (uid status mode : String) (now : Int)
    (firstOk secondOk : Bool) : List AuditWrite × Bool :=
  let first : AuditWrite := ⟨"all_rfid_logs", uid ++ "-" ++ toString now⟩
  if firstOk then
    if status == "accepted" then
      if secondOk then ([first, ⟨logCollection mode, uid⟩], false)
      else ([first], false)
    else if status == "denied" then
      if secondOk then ([first, ⟨"denied_uid", uid ++ "-" ++ toString now⟩], false)
      else ([first], false)
    else ([first], false)
  else ([], true)

/-- The Decision values of the spec, attached to each branch of `processQueue`. -/
inductive Decision
  | accepted
  | deniedUnassigned
  | deniedUnknown
  | deniedNoAssignedField
  | error
deriving DecidableEq

/-- Everything one `processQueue` call produces: the channel state afterwards,
the responses handed to writeToSerialPort, the successful audit writes, a flag
for an audit failure that was logged and swallowed, and the decision. -/
structure ProcessResult where
  queue : List String
  cooldown : CooldownCache
  responses : List String
  audits : List AuditWrite
  auditErrLogged : Bool
  decision : Option Decision

/-- `cooldownCache[uid] = currentTime` as a functional map update. -/
def setCooldown (c : CooldownCache) (uid : String) (t : Int) : CooldownCache :=
  fun v => if v == uid then some t else c v

/-- `processQueue` of part_000: dequeue the head tag, record its cooldown
timestamp at the moment of dequeue, resolve it against the store, write exactly
one response for the branch taken, and log the decision.  `fetch` is the
outcome of `fetchResidentDataWithRetry`; `firstOk` / `secondOk` feed
`logToFirebase`.  The store-error branch (the outer catch) writes "Error" and
performs no audit write. -/
def processQueue (mode : String) (st : ChannelState) (now : Int)
    (fetch : FetchResult) (firstOk secondOk : Bool) : ProcessResult :=
  match st.queue with
  | [] => ⟨st.queue, st.cooldown, [], [], false, none⟩
  | uid :: rest =>
    let cd := setCooldown st.cooldown uid now
    match fetch with
    | .storeError =>
      ⟨rest, cd, ["Error\n"], [], false, some .error⟩
    | .success none =>
      let we := logToFirebase uid "denied" mode now firstOk secondOk
      ⟨rest, cd, ["Resident Not Found\n"], we.1, we.2, some .deniedUnknown⟩
    | .success (some r) =>
      match r.assigned with
      | .bTrue =>
        let we := logToFirebase uid "accepted" mode now firstOk secondOk
        ⟨rest, cd, ["Resident Found\n"], we.1, we.2, some .accepted⟩
      | .bFalse =>
        let we := logToFirebase uid "denied" mode now firstOk secondOk
        ⟨rest, cd, ["Resident Not Found - Assign Needed\n"], we.1, we.2,
          some .deniedUnassigned⟩
      | _ =>
        let we := logToFirebase uid "denied" mode now firstOk secondOk
        ⟨rest, cd, ["Resident Not Found\n"], we.1, we.2,
          some .deniedNoAssignedField⟩

/-- `handleReaderData` of part_000 end to end: filter the raw line, run the
Cooldown Gate, and on admission run `processQueue` (which the JS code calls
synchronously right after the push). -/
def handleReaderData (mode : String) (st : ChannelState) (raw : String)
    (now : Int) (fetch : FetchResult) (firstOk secondOk : Bool) : ProcessResult :=
  match validate raw with
  | .ping => ⟨st.queue, st.cooldown, [], [], false, none⟩
  | .invalid => ⟨st.queue, st.cooldown, [], [], false, none⟩
  | .tag uid =>
    let ga := cooldownGate st uid now
    if ga.2 then processQueue mode ga.1 now fetch firstOk secondOk
    else ⟨st.queue, st.cooldown, [], [], false, none⟩

/-- Outcome of the single Firestore get in the Assign handler. -/
inductive GetResult
  | gerr
  | gok (doc : Option ResidentRecord)

/-- Observable outcome of one Assign-channel line: responses written to the
Assign port, the document created by `.set(\x7b assigned: false \x7d)` if any, and
whether the invalid-UID error log fired. -/
structure AssignResult where
  responses : List String
  created : Option (String × ResidentRecord)
  invalidLogged : Bool
deriving DecidableEq

/-- The Assign Reader data handler of part_000 / serverfixing.js: trim, validate
(no ping filtering on this channel), then look up the resident document; absent
documents are created with assigned = false; `assigned === false` answers
"UID Not Assigned", anything else answers "Resident Found"; any store failure
answers "Error". `setOk` says whether the create write succeeds. -/
def assignOnData (raw : String) (g : GetResult) (setOk : Bool) : AssignResult :=
  let uid := jsTrim raw
  if !isValidUID uid then ⟨[], none, true⟩
  else
    match g with
    | .gerr => ⟨["Error\n"], none, false⟩
    | .gok (some r) =>
      if r.assigned == .bFalse then ⟨["UID Not Assigned\n"], none, false⟩
      else ⟨["Resident Found\n"], none, false⟩
    | .gok none =>
      if setOk then ⟨["New Resident Created\n"], some (uid, ⟨.bFalse⟩), false⟩
      else ⟨["Error\n"], none, false⟩

/-- The response string `processQueue` writes for a given resolution outcome. -/
def responseFor (fetch : FetchResult) : String :=
  match fetch with
  | .storeError => "Error\n"
  | .success none => "Resident Not Found\n"
  | .success (some r) =>
    match r.assigned with
    | .bTrue => "Resident Found\n"
    | .bFalse => "Resident Not Found - Assign Needed\n"
    | _ => "Resident Not Found\n"

/-- State of the dispatcher of one channel with in-flight asynchronous resolutions:
the pending queue, the cooldown map, the tags whose resolution has been
launched but whose continuation has not yet run (in launch order), and the
responses emitted so far (in emission order). -/
structure DispatchState where
  queue : List String
  cooldown : CooldownCache
  inFlight : List String
  responses : List String

/-- Events of the per-channel event loop: a raw line arriving on the serial
parser at a given time, or the completion of the i-th in-flight resolution
with a given store outcome.  Completions may occur in any order — the JS
runtime runs each fetch continuation whenever its promise settles. -/
inductive DispatchEvent
  | scan (raw : String) (now : Int)
  | fetchDone (i : Nat) (fetch : FetchResult)

/-- One step of the per-channel event loop, as the JS code schedules it:
`handleReaderData` runs synchronously — filter, admission test, push, and then
`processQueue` immediately shifts the head of the queue, records its cooldown
and launches its fetch, without waiting for any earlier resolution to settle.
A `fetchDone` event removes the completed entry and emits its response. -/
def dispatchStep (s : DispatchState) (e : DispatchEvent) : DispatchState :=
  match e with
  | .scan raw now =>
    match validate raw with
    | .ping => s
    | .invalid => s
    | .tag uid =>
      if admitCheck ⟨s.queue, s.cooldown⟩ uid now then
        match s.queue ++ [uid] with
        | [] => s
        | u :: rest =>
          { s with queue := rest, cooldown := setCooldown s.cooldown u now,
                   inFlight := s.inFlight ++ [u] }
      else s
  | .fetchDone i fetch =>
    match s.inFlight.get? i with
    | none => s
    | some _ =>
      { s with inFlight := s.inFlight.eraseIdx i,
               responses := s.responses ++ [responseFor fetch] }

/-- Run a sequence of events through the per-channel event loop. -/
def dispatchRun (s : DispatchState) (es : List DispatchEvent) : DispatchState :=
  es.foldl dispatchStep s

/-- The denied-events collection name used by `logDeniedUID` in part_001: the
characters Denied Uid, an apostrophe (code 39), and s. -/
def deniedCollectionV1 : String :=
  "Denied Uid" ++ String.mk [Char.ofNat 39] ++ "s"

/-- `logToFirebase` of part_001.  Both writes are awaited and the function has
no catch of its own: the first failure aborts the remaining writes and
rethrows to the caller.  Only an accepted status performs the conditional
latest write; any other status performs the all-events write alone.  Returns
the successful writes and whether the function threw. -/
def logToFirebaseV1 (uid status mode : String) (now : Int)
    (firstOk secondOk : Bool) : List AuditWrite × Bool :=
  let first : AuditWrite := ⟨"all_rfid_logs", uid ++ "-" ++ toString now⟩
  if firstOk then
    if status == "accepted" then
      if secondOk then ([first, ⟨logCollection mode, uid⟩], false)
      else ([first], true)
    else ([first], false)
  else ([], true)

/-- `logDeniedUID` of part_001: one awaited append keyed by tag and timestamp,
no catch — a failure rethrows to the caller.  (The location field of the
document is not part of the key and is not modelled.) -/
def logDeniedUID (uid : String) (now : Int) (ok : Bool) :
    List AuditWrite × Bool :=
  if ok then ([⟨deniedCollectionV1, uid ++ "-" ++ toString now⟩], false)
  else ([], true)

/-- The decision response of part_001: a found record takes the assign-needed
branch for every assigned value other than the literal true — part_001 has no
separate no-assigned-field branch. -/
def responseForV1 (fetch : FetchResult) : String :=
  match fetch with
  | .storeError => "Error\n"
  | .success none => "Resident Not Found\n"
  | .success (some r) =>
    match r.assigned with
    | .bTrue => "Resident Found\n"
    | _ => "Resident Not Found - Assign Needed\n"

/-- `processQueue` of part_001: dequeue, record the cooldown at dequeue,
resolve; the decision response is awaited first, then the audit writes are
awaited inside the same try — so a failed audit write rethrows into the catch,
which writes an additional Error response after the decision response.
`firstOk` is the all-events write, `secondOk` the follow-up write of the
branch taken (the latest upsert for accepted, the `logDeniedUID` append for
denied outcomes). -/
def processQueueV1 (mode : String) (st : ChannelState) (now : Int)
    (fetch : FetchResult) (firstOk secondOk : Bool) : ProcessResult :=
  match st.queue with
  | [] => ⟨st.queue, st.cooldown, [], [], false, none⟩
  | uid :: rest =>
    let cd := setCooldown st.cooldown uid now
    match fetch with
    | .storeError =>
      ⟨rest, cd, ["Error\n"], [], false, some .error⟩
    | .success (some r) =>
      match r.assigned with
      | .bTrue =>
        let lg := logToFirebaseV1 uid "accepted" mode now firstOk secondOk
        if lg.2 then
          ⟨rest, cd, ["Resident Found\n", "Error\n"], lg.1, false, some .accepted⟩
        else
          ⟨rest, cd, ["Resident Found\n"], lg.1, false, some .accepted⟩
      | _ =>
        let lg := logToFirebaseV1 uid "denied" mode now firstOk true
        if lg.2 then
          ⟨rest, cd, ["Resident Not Found - Assign Needed\n", "Error\n"], lg.1, false,
            some .deniedUnassigned⟩
        else
          let ld := logDeniedUID uid now secondOk
          if ld.2 then
            ⟨rest, cd, ["Resident Not Found - Assign Needed\n", "Error\n"],
              lg.1 ++ ld.1, false, some .deniedUnassigned⟩
          else
            ⟨rest, cd, ["Resident Not Found - Assign Needed\n"], lg.1 ++ ld.1, false,
              some .deniedUnassigned⟩
    | .success none =>
      let lg := logToFirebaseV1 uid "denied" mode now firstOk true
      if lg.2 then
        ⟨rest, cd, ["Resident Not Found\n", "Error\n"], lg.1, false, some .deniedUnknown⟩
      else
        let ld := logDeniedUID uid now secondOk
        if ld.2 then
          ⟨rest, cd, ["Resident Not Found\n", "Error\n"], lg.1 ++ ld.1, false,
            some .deniedUnknown⟩
        else
          ⟨rest, cd, ["Resident Not Found\n"], lg.1 ++ ld.1, false, some .deniedUnknown⟩

/-! ## Helper lemmas -/

/-- Fields of `processQueue` on a non-empty queue, for every store outcome. -/
theorem processQueue_cons (mode uid : String) (rest : List String)
    (cd : CooldownCache) (now : Int) (fetch : FetchResult) (f s : Bool) :
    (processQueue mode ⟨uid :: rest, cd⟩ now fetch f s).queue = rest
  ∧ (processQueue mode ⟨uid :: rest, cd⟩ now fetch f s).cooldown = setCooldown cd uid now
  ∧ (processQueue mode ⟨uid :: rest, cd⟩ now fetch f s).responses = [responseFor fetch] := by
  cases fetch with
  | storeError => exact ⟨rfl, rfl, rfl⟩
  | success doc =>
    cases doc with
    | none => exact ⟨rfl, rfl, rfl⟩
    | some r =>
      cases r with
      | mk a => cases a <;> exact ⟨rfl, rfl, rfl⟩

/-- An admitted scan reduces `handleReaderData` to `processQueue` on the queue
with the tag pushed. -/
theorem handleReaderData_admitted (mode raw uid : String) (st : ChannelState)
    (now : Int) (fetch : FetchResult) (f s : Bool)
    (hv : validate raw = .tag uid) (ha : admitCheck st uid now = true) :
    handleReaderData mode st raw now fetch f s
      = processQueue mode ⟨st.queue ++ [uid], st.cooldown⟩ now fetch f s := by
  unfold handleReaderData
  rw [hv]
  simp only [cooldownGate, ha, if_true]

/-- The responses of `processQueue` on any non-empty queue. -/
theorem processQueue_responses_ne_nil (mode : String) (q : List String)
    (cd : CooldownCache) (now : Int) (fetch : FetchResult) (f s : Bool)
    (hq : q ≠ []) :
    (processQueue mode ⟨q, cd⟩ now fetch f s).responses = [responseFor fetch] := by
  cases q with
  | nil => exact absurd rfl hq
  | cons u rest => exact (processQueue_cons mode u rest cd now fetch f s).2.2

/-! ## Claim theorems -/

/-- Claim C1 counterexample: in the part_001 variant, a found record whose
assigned field is absent answers "Resident Not Found - Assign Needed" with the
denied-unassigned decision — not the DeniedNoAssignedField row with
"Resident Not Found" the claimed table requires. -/
theorem decisionTableCounterexample :
    (processQueueV1 "Vehicle Entry" ⟨["AAAAAAAA"], fun _ => none⟩ 1
        (.success (some ⟨.undef⟩)) true true).responses
      = ["Resident Not Found - Assign Needed\n"]
  ∧ (processQueueV1 "Vehicle Entry" ⟨["AAAAAAAA"], fun _ => none⟩ 1
        (.success (some ⟨.undef⟩)) true true).decision = some .deniedUnassigned
  ∧ (processQueueV1 "Vehicle Entry" ⟨["AAAAAAAA"], fun _ => none⟩ 1
        (.success (some ⟨.undef⟩)) true true).decision ≠ some .deniedNoAssignedField
  ∧ ("Resident Not Found - Assign Needed\n" : String) ≠ "Resident Not Found\n" := by
  refine ⟨rfl, rfl, by decide, by decide⟩

/-- Claim C1 amended: in the part_000 variant the table holds exactly as
claimed — not found gives DeniedUnknown with "Resident Not Found"; found and
unassigned gives DeniedUnassigned with "Resident Not Found - Assign Needed";
found with the assigned field absent gives DeniedNoAssignedField with
"Resident Not Found"; found and assigned gives Accepted with "Resident Found";
a store failure gives Error with "Error".  In the part_001 variant there is no
no-assigned-field row: a found record with any assigned value other than the
literal true — the absent field included — takes the denied-unassigned branch
with "Resident Not Found - Assign Needed", and the remaining rows agree. -/
theorem decisionTableAmended (mode uid : String) (rest : List String)
    (cd : CooldownCache) (now : Int) (f s : Bool) :
    ((processQueue mode ⟨uid :: rest, cd⟩ now (.success none) f s).decision
        = some .deniedUnknown
      ∧ (processQueue mode ⟨uid :: rest, cd⟩ now (.success none) f s).responses
        = ["Resident Not Found\n"])
  ∧ ((processQueue mode ⟨uid :: rest, cd⟩ now (.success (some ⟨.bFalse⟩)) f s).decision
        = some .deniedUnassigned
      ∧ (processQueue mode ⟨uid :: rest, cd⟩ now (.success (some ⟨.bFalse⟩)) f s).responses
        = ["Resident Not Found - Assign Needed\n"])
  ∧ ((processQueue mode ⟨uid :: rest, cd⟩ now (.success (some ⟨.undef⟩)) f s).decision
        = some .deniedNoAssignedField
      ∧ (processQueue mode ⟨uid :: rest, cd⟩ now (.success (some ⟨.undef⟩)) f s).responses
        = ["Resident Not Found\n"])
  ∧ ((processQueue mode ⟨uid :: rest, cd⟩ now (.success (some ⟨.bTrue⟩)) f s).decision
        = some .accepted
      ∧ (processQueue mode ⟨uid :: rest, cd⟩ now (.success (some ⟨.bTrue⟩)) f s).responses
        = ["Resident Found\n"])
  ∧ ((processQueue mode ⟨uid :: rest, cd⟩ now .storeError f s).decision
        = some .error
      ∧ (processQueue mode ⟨uid :: rest, cd⟩ now .storeError f s).responses
        = ["Error\n"])
  ∧ ((processQueueV1 mode ⟨uid :: rest, cd⟩ now (.success none) true true).decision
        = some .deniedUnknown
      ∧ (processQueueV1 mode ⟨uid :: rest, cd⟩ now (.success none) true true).responses
        = ["Resident Not Found\n"])
  ∧ ((processQueueV1 mode ⟨uid :: rest, cd⟩ now (.success (some ⟨.bFalse⟩)) true true).decision
        = some .deniedUnassigned
      ∧ (processQueueV1 mode ⟨uid :: rest, cd⟩ now (.success (some ⟨.bFalse⟩)) true true).responses
        = ["Resident Not Found - Assign Needed\n"])
  ∧ ((processQueueV1 mode ⟨uid :: rest, cd⟩ now (.success (some ⟨.undef⟩)) true true).decision
        = some .deniedUnassigned
      ∧ (processQueueV1 mode ⟨uid :: rest, cd⟩ now (.success (some ⟨.undef⟩)) true true).responses
        = ["Resident Not Found - Assign Needed\n"])
  ∧ ((processQueueV1 mode ⟨uid :: rest, cd⟩ now (.success (some ⟨.bTrue⟩)) true true).decision
        = some .accepted
      ∧ (processQueueV1 mode ⟨uid :: rest, cd⟩ now (.success (some ⟨.bTrue⟩)) true true).responses
        = ["Resident Found\n"])
  ∧ ((processQueueV1 mode ⟨uid :: rest, cd⟩ now .storeError f s).decision
        = some .error
      ∧ (processQueueV1 mode ⟨uid :: rest, cd⟩ now .storeError f s).responses
        = ["Error\n"]) :=
  ⟨⟨rfl, rfl⟩, ⟨rfl, rfl⟩, ⟨rfl, rfl⟩, ⟨rfl, rfl⟩, ⟨rfl, rfl⟩,
   ⟨rfl, rfl⟩, ⟨rfl, rfl⟩, ⟨rfl, rfl⟩, ⟨rfl, rfl⟩, ⟨rfl, rfl⟩⟩

/-- Claim C2 counterexample: in the part_001 variant the audit writes are
awaited inside the same try as the decision response and have no catch of
their own, so a failed all-events write rethrows into the processQueue catch,
which writes a second response — an admitted accepted scan whose audit append
fails answers "Resident Found" and then "Error", two response lines, not one. -/
theorem oneResponseCounterexample :
    (processQueueV1 "Vehicle Entry" ⟨["AAAAAAAA"], fun _ => none⟩ 1
        (.success (some ⟨.bTrue⟩)) false true).responses
      = ["Resident Found\n", "Error\n"]
  ∧ (processQueueV1 "Vehicle Entry" ⟨["AAAAAAAA"], fun _ => none⟩ 1
        (.success (some ⟨.bTrue⟩)) false true).responses.length ≠ 1 := by
  refine ⟨rfl, by decide⟩

/-- Claim C2 amended: in the part_000 variant every admitted scan produces
exactly one response line whatever the store outcome, and the responses do not
depend on whether the audit writes succeed — logToFirebase swallows its own
failure and processQueue never awaits it.  In the part_001 variant an admitted
scan produces exactly one response when the audit writes succeed, and exactly
one when resolution itself fails; but a failed audit write rethrows into the
processQueue catch and appends a second response, "Error", after the decision
response. -/
theorem oneResponseAmended (mode raw uid : String) (st : ChannelState)
    (now : Int) (fetch : FetchResult) (f s : Bool) (rest : List String)
    (cd : CooldownCache)
    (hv : validate raw = .tag uid) (ha : admitCheck st uid now = true) :
    (handleReaderData mode st raw now fetch f s).responses = [responseFor fetch]
  ∧ (handleReaderData mode st raw now fetch f s).responses
      = (handleReaderData mode st raw now fetch true true).responses
  ∧ (processQueueV1 mode ⟨uid :: rest, cd⟩ now fetch true true).responses
      = [responseForV1 fetch]
  ∧ (processQueueV1 mode ⟨uid :: rest, cd⟩ now .storeError f s).responses
      = ["Error\n"]
  ∧ (fetch ≠ .storeError →
      (processQueueV1 mode ⟨uid :: rest, cd⟩ now fetch false s).responses
        = [responseForV1 fetch, "Error\n"]) := by
  refine ⟨?_, ?_, ?_, rfl, ?_⟩
  · rw [handleReaderData_admitted mode raw uid st now fetch f s hv ha,
      processQueue_responses_ne_nil mode (st.queue ++ [uid]) st.cooldown now fetch f s
        (by simp)]
  · rw [handleReaderData_admitted mode raw uid st now fetch f s hv ha,
      handleReaderData_admitted mode raw uid st now fetch true true hv ha,
      processQueue_responses_ne_nil mode (st.queue ++ [uid]) st.cooldown now fetch f s
        (by simp),
      processQueue_responses_ne_nil mode (st.queue ++ [uid]) st.cooldown now fetch true true
        (by simp)]
  · cases fetch with
    | storeError => rfl
    | success doc =>
      cases doc with
      | none => rfl
      | some r =>
        cases r with
        | mk a => cases a <;> rfl
  · intro hne
    cases fetch with
    | storeError => exact absurd rfl hne
    | success doc =>
      cases doc with
      | none => rfl
      | some r =>
        cases r with
        | mk a => cases a <;> rfl

/-- Claim C2 amended witness: a concrete part_000 admitted scan with failing
store and failing audit writes still answers exactly once, while the same
accepted scan in part_001 with a failing audit append answers twice. -/
theorem oneResponseAmended_witness :
    (handleReaderData "Walk-in" ⟨[], fun _ => none⟩ "AAAAAAAA" 1 .storeError
        false false).responses = [responseFor .storeError]
  ∧ (processQueueV1 "Walk-in" ⟨["BBBBBBBB"], fun _ => none⟩ 1 (.success none)
        false true).responses = [responseForV1 (.success none), "Error\n"] :=
  ⟨(oneResponseAmended "Walk-in" "AAAAAAAA" "AAAAAAAA" ⟨[], fun _ => none⟩ 1
      .storeError false false [] (fun _ => none) (by decide) (by decide)).1,
   (oneResponseAmended "Walk-in" "BBBBBBBB" "BBBBBBBB" ⟨[], fun _ => none⟩ 1
      (.success none) false true [] (fun _ => none) (by decide) (by decide)).2.2.2.2
     (by decide)⟩

/-- Claim C3: the admission test succeeds iff the tag is not currently in the
pending queue and either no last-processed timestamp is recorded for it or the
elapsed time since that record is at least the cooldown window; on admission
the tag is appended to the FIFO queue, and a rejected valid scan leaves the
state unchanged and sends no response.  The hypothesis that recorded
timestamps are positive holds in every reachable state because they are
Date.now() values. -/
theorem admitIff (st : ChannelState) (uid : String) (now : Int)
    (hpos : ∀ t : Int, st.cooldown uid = some t → 0 < t) :
    (admitCheck st uid now = true ↔
      uid ∉ st.queue ∧ (st.cooldown uid = none ∨
        ∃ t : Int, st.cooldown uid = some t ∧ cooldownTime ≤ now - t))
  ∧ (admitCheck st uid now = true →
      (cooldownGate st uid now).1.queue = st.queue ++ [uid])
  ∧ (admitCheck st uid now = false →
      ∀ mode raw fetch f s, validate raw = .tag uid →
        (handleReaderData mode st raw now fetch f s).responses = []
        ∧ (handleReaderData mode st raw now fetch f s).queue = st.queue) := by
  refine ⟨?_, ?_, ?_⟩
  · cases hc : st.cooldown uid with
    | none =>
      simp [admitCheck, cooldownOk, hc, List.contains]
    | some t =>
      have ht : ¬(t = 0) := by
        intro h0
        exact absurd (hpos t hc) (by omega)
      simp [admitCheck, cooldownOk, hc, List.contains, ht]
  · intro ha
    simp [cooldownGate, ha]
  · intro ha mode raw fetch f s hv
    unfold handleReaderData
    rw [hv]
    simp [cooldownGate, ha]

/-- Claim C3 witness: a tag with no record on an empty queue is admitted. -/
theorem admitIff_witness :
    admitCheck ⟨[], fun _ => none⟩ "AAAAAAAA" 0 = true :=
  (admitIff ⟨[], fun _ => none⟩ "AAAAAAAA" 0 (fun _ h => nomatch h)).1.mpr
    ⟨by simp, Or.inl rfl⟩

/-- Claim C4: `processQueue` records the cooldown timestamp of the dequeued tag
at the moment of dequeue (for every store outcome); afterwards the tag is
refused at every time with elapsed time below the window and admitted once the
window has elapsed (when it is no longer queued); and while a tag is still in
the pending queue an identical scan is rejected by the already-in-queue check
alone.  The dequeue time is positive because it is a Date.now() value. -/
theorem cooldownAtDequeue (mode uid : String) (rest : List String)
    (cd : CooldownCache) (d : Int) (fetch : FetchResult) (f s : Bool)
    (hd : 0 < d) :
    ((processQueue mode ⟨uid :: rest, cd⟩ d fetch f s).cooldown uid = some d)
  ∧ (∀ t : Int, t - d < cooldownTime →
      admitCheck ⟨(processQueue mode ⟨uid :: rest, cd⟩ d fetch f s).queue,
        (processQueue mode ⟨uid :: rest, cd⟩ d fetch f s).cooldown⟩ uid t = false)
  ∧ (∀ t : Int, cooldownTime ≤ t - d → uid ∉ rest →
      admitCheck ⟨(processQueue mode ⟨uid :: rest, cd⟩ d fetch f s).queue,
        (processQueue mode ⟨uid :: rest, cd⟩ d fetch f s).cooldown⟩ uid t = true)
  ∧ (∀ st2 : ChannelState, uid ∈ st2.queue → admitCheck st2 uid d = false) := by
  obtain ⟨hq, hcd, -⟩ := processQueue_cons mode uid rest cd d fetch f s
  have hset : (processQueue mode ⟨uid :: rest, cd⟩ d fetch f s).cooldown uid = some d := by
    rw [hcd]; simp [setCooldown]
  have hd0 : ¬(d = 0) := by omega
  refine ⟨hset, ?_, ?_, ?_⟩
  · intro t ht
    have hlt : ¬(cooldownTime ≤ t - d) := by omega
    simp [admitCheck, cooldownOk, hset, hd0, hlt]
  · intro t ht hmem
    rw [hq]
    simp [admitCheck, cooldownOk, hset, hd0, ht, List.contains, hmem]
  · intro st2 hmem
    simp [admitCheck, List.contains, hmem]

/-- Claim C4 witness: with the cooldown window of 180000 ms, a tag dequeued at
time 1 is refused at time 2 and admitted again at time 180001. -/
theorem cooldownAtDequeue_witness :
    (processQueue "Vehicle Entry" ⟨["AAAAAAAA"], fun _ => none⟩ 1
        (.success none) true true).cooldown "AAAAAAAA" = some 1
  ∧ admitCheck ⟨(processQueue "Vehicle Entry" ⟨["AAAAAAAA"], fun _ => none⟩ 1
        (.success none) true true).queue,
      (processQueue "Vehicle Entry" ⟨["AAAAAAAA"], fun _ => none⟩ 1
        (.success none) true true).cooldown⟩ "AAAAAAAA" 2 = false
  ∧ admitCheck ⟨(processQueue "Vehicle Entry" ⟨["AAAAAAAA"], fun _ => none⟩ 1
        (.success none) true true).queue,
      (processQueue "Vehicle Entry" ⟨["AAAAAAAA"], fun _ => none⟩ 1
        (.success none) true true).cooldown⟩ "AAAAAAAA" 180001 = true :=
  ⟨(cooldownAtDequeue "Vehicle Entry" "AAAAAAAA" [] (fun _ => none) 1
      (.success none) true true (by decide)).1,
   (cooldownAtDequeue "Vehicle Entry" "AAAAAAAA" [] (fun _ => none) 1
      (.success none) true true (by decide)).2.1 2 (by decide),
   (cooldownAtDequeue "Vehicle Entry" "AAAAAAAA" [] (fun _ => none) 1
      (.success none) true true (by decide)).2.2.1 180001 (by decide) (by simp)⟩

/-- Claim C10: the cooldown timestamp of the dequeued tag is recorded whatever
the store outcome and is never rolled back — in particular, when resolution
exhausts its retries the scan still answers exactly "Error" with
Decision=Error, and the same tag stays blocked on that channel until the
cooldown window elapses. -/
theorem errorConsumesCooldown (mode uid : String) (rest : List String)
    (cd : CooldownCache) (d : Int) (f s : Bool) (hd : 0 < d) :
    (∀ fetch : FetchResult,
      (processQueue mode ⟨uid :: rest, cd⟩ d fetch f s).cooldown uid = some d)
  ∧ (processQueue mode ⟨uid :: rest, cd⟩ d .storeError f s).responses = ["Error\n"]
  ∧ (processQueue mode ⟨uid :: rest, cd⟩ d .storeError f s).decision = some .error
  ∧ (∀ t : Int, t - d < cooldownTime →
      admitCheck ⟨rest, (processQueue mode ⟨uid :: rest, cd⟩ d .storeError f s).cooldown⟩
        uid t = false) := by
  have hd0 : ¬(d = 0) := by omega
  refine ⟨?_, rfl, rfl, ?_⟩
  · intro fetch
    rw [(processQueue_cons mode uid rest cd d fetch f s).2.1]
    simp [setCooldown]
  · intro t ht
    have hset : (processQueue mode ⟨uid :: rest, cd⟩ d .storeError f s).cooldown uid
        = some d := by
      rw [(processQueue_cons mode uid rest cd d .storeError f s).2.1]
      simp [setCooldown]
    have hlt : ¬(cooldownTime ≤ t - d) := by omega
    simp [admitCheck, cooldownOk, hset, hd0, hlt]

/-- Claim C10 witness: a concrete failed resolution at time 1 answers "Error"
and leaves the tag blocked at time 180000, one millisecond short of the
window. -/
theorem errorConsumesCooldown_witness :
    (processQueue "Walk-in" ⟨["AAAAAAAA"], fun _ => none⟩ 1 .storeError
        true true).responses = ["Error\n"]
  ∧ admitCheck ⟨[], (processQueue "Walk-in" ⟨["AAAAAAAA"], fun _ => none⟩ 1
        .storeError true true).cooldown⟩ "AAAAAAAA" 180000 = false :=
  ⟨(errorConsumesCooldown "Walk-in" "AAAAAAAA" [] (fun _ => none) 1 true true
      (by decide)).2.1,
   (errorConsumesCooldown "Walk-in" "AAAAAAAA" [] (fun _ => none) 1 true true
      (by decide)).2.2.2 180000 (by decide)⟩

/-- Claim C5 counterexample: (1) a store failure (Decision=Error) performs no
audit write at all — not even the all-events append the claim requires; (2) an
accepted decision on the "Walk-in" channel (an entry-direction channel) writes
its latest-accepted upsert into latest_exit_log, because `logToFirebase`
chooses the collection by testing whether the channel name contains the
substring "Entry". -/
theorem auditClaimCounterexample :
    (processQueue "Vehicle Entry" ⟨["AAAAAAAA"], fun _ => none⟩ 1 .storeError
        true true).audits = []
  ∧ (processQueue "Vehicle Entry" ⟨["AAAAAAAA"], fun _ => none⟩ 1 .storeError
        true true).decision = some .error
  ∧ (logToFirebase "AAAAAAAA" "accepted" "Walk-in" 1 true true).1
      = [⟨"all_rfid_logs", "AAAAAAAA-1"⟩, ⟨"latest_exit_log", "AAAAAAAA"⟩]
  ∧ ("latest_exit_log" : String) ≠ "latest_accepted_entry_log" := by
  refine ⟨rfl, rfl, by decide, by decide⟩

/-- Claim C5 amended: in both variants, with the audit store healthy, every
decision except Error first appends one record to all_rfid_logs keyed by tag
and timestamp, an accepted decision adds exactly one upsert keyed by the tag
alone into latest_accepted_entry_log when the channel name contains "Entry"
and into latest_exit_log otherwise (so Walk-in accepted events land in the
exit log), and an Error decision performs no audit write at all.  The denied
follow-up differs: part_000 appends into denied_uid, part_001 appends into
its separate Denied Uid collection via logDeniedUID.  Failure handling also
differs: in part_000 a failed all-events write is caught and swallowed by
logToFirebase and suppresses the follow-up, while a failed follow-up write is
never chained and its rejection is unhandled — invisible to the catch; in
part_001 a failed audit write is not swallowed at all — it rethrows (see the
C2 theorems for the extra Error response it causes). -/
theorem auditAmended (mode uid : String) (rest : List String)
    (cd : CooldownCache) (now : Int) :
    ((processQueue mode ⟨uid :: rest, cd⟩ now .storeError true true).audits = [])
  ∧ ((processQueue mode ⟨uid :: rest, cd⟩ now (.success (some ⟨.bTrue⟩)) true true).audits
      = [⟨"all_rfid_logs", uid ++ "-" ++ toString now⟩, ⟨logCollection mode, uid⟩])
  ∧ ((processQueue mode ⟨uid :: rest, cd⟩ now (.success none) true true).audits
      = [⟨"all_rfid_logs", uid ++ "-" ++ toString now⟩,
         ⟨"denied_uid", uid ++ "-" ++ toString now⟩])
  ∧ ((processQueue mode ⟨uid :: rest, cd⟩ now (.success (some ⟨.bFalse⟩)) true true).audits
      = [⟨"all_rfid_logs", uid ++ "-" ++ toString now⟩,
         ⟨"denied_uid", uid ++ "-" ++ toString now⟩])
  ∧ ((processQueue mode ⟨uid :: rest, cd⟩ now (.success (some ⟨.undef⟩)) true true).audits
      = [⟨"all_rfid_logs", uid ++ "-" ++ toString now⟩,
         ⟨"denied_uid", uid ++ "-" ++ toString now⟩])
  ∧ logCollection "Walk-in" = "latest_exit_log"
  ∧ logCollection "Vehicle Entry" = "latest_accepted_entry_log"
  ∧ (∀ status : String, (logToFirebase uid status mode now false true).1 = []
      ∧ (logToFirebase uid status mode now false true).2 = true)
  ∧ ((logToFirebase uid "accepted" mode now true false).1
        = [⟨"all_rfid_logs", uid ++ "-" ++ toString now⟩]
      ∧ (logToFirebase uid "accepted" mode now true false).2 = false)
  ∧ ((logToFirebase uid "denied" mode now true false).1
        = [⟨"all_rfid_logs", uid ++ "-" ++ toString now⟩]
      ∧ (logToFirebase uid "denied" mode now true false).2 = false)
  ∧ ((processQueueV1 mode ⟨uid :: rest, cd⟩ now .storeError true true).audits = [])
  ∧ ((processQueueV1 mode ⟨uid :: rest, cd⟩ now (.success (some ⟨.bTrue⟩)) true true).audits
      = [⟨"all_rfid_logs", uid ++ "-" ++ toString now⟩, ⟨logCollection mode, uid⟩])
  ∧ ((processQueueV1 mode ⟨uid :: rest, cd⟩ now (.success none) true true).audits
      = [⟨"all_rfid_logs", uid ++ "-" ++ toString now⟩,
         ⟨deniedCollectionV1, uid ++ "-" ++ toString now⟩])
  ∧ ((processQueueV1 mode ⟨uid :: rest, cd⟩ now (.success (some ⟨.bFalse⟩)) true true).audits
      = [⟨"all_rfid_logs", uid ++ "-" ++ toString now⟩,
         ⟨deniedCollectionV1, uid ++ "-" ++ toString now⟩])
  ∧ ((processQueueV1 mode ⟨uid :: rest, cd⟩ now (.success (some ⟨.undef⟩)) true true).audits
      = [⟨"all_rfid_logs", uid ++ "-" ++ toString now⟩,
         ⟨deniedCollectionV1, uid ++ "-" ++ toString now⟩])
  ∧ (∀ fetch : FetchResult,
      (processQueueV1 mode ⟨uid :: rest, cd⟩ now fetch false true).audits = []) := by
  refine ⟨rfl, ?_, ?_, ?_, ?_, by decide, by decide, ?_, ?_, ?_, rfl, ?_, ?_, ?_, ?_, ?_⟩
  · simp [processQueue, logToFirebase]
  · simp [processQueue, logToFirebase]
  · simp [processQueue, logToFirebase]
  · simp [processQueue, logToFirebase]
  · intro status
    exact ⟨by simp [logToFirebase], by simp [logToFirebase]⟩
  · exact ⟨by simp [logToFirebase], by simp [logToFirebase]⟩
  · exact ⟨by simp [logToFirebase], by simp [logToFirebase]⟩
  · simp [processQueueV1, logToFirebaseV1, logCollection]
  · simp [processQueueV1, logToFirebaseV1, logDeniedUID]
  · simp [processQueueV1, logToFirebaseV1, logDeniedUID]
  · simp [processQueueV1, logToFirebaseV1, logDeniedUID]
  · intro fetch
    cases fetch with
    | storeError => rfl
    | success doc =>
      cases doc with
      | none => rfl
      | some r =>
        cases r with
        | mk a => cases a <;> rfl

/-- With an always-failing store, the part_000 retry recursion makes one
attempt per unit of remaining budget plus the initial one, then surfaces the
error. -/
theorem tryFetchingGo_allErr (attempts : Nat → AttemptResult)
    (h : ∀ k, attempts k = .err) :
    ∀ remaining attempt, tryFetchingGo attempts attempt remaining
      = (.storeError, attempt + remaining + 1) := by
  intro remaining
  induction remaining with
  | zero => intro a; simp [tryFetchingGo, h a]
  | succ r ih =>
    intro a
    rw [show a + (r + 1) + 1 = (a + 1) + r + 1 by omega]
    simpa [tryFetchingGo, h a] using ih (a + 1)

/-- The part_000 retry recursion returns as soon as an attempt succeeds, after
exactly that many get calls. -/
theorem tryFetchingGo_firstOk (attempts : Nat → AttemptResult) :
    ∀ j remaining attempt doc, j ≤ remaining →
      (∀ k, k < j → attempts (attempt + k) = .err) →
      attempts (attempt + j) = .ok doc →
      tryFetchingGo attempts attempt remaining = (.success doc, attempt + j + 1) := by
  intro j
  induction j with
  | zero =>
    intro remaining a doc _ _ hok
    simp only [Nat.add_zero] at hok
    cases remaining with
    | zero => simp [tryFetchingGo, hok]
    | succ r => simp [tryFetchingGo, hok]
  | succ n ih =>
    intro remaining a doc hle herr hok
    have ha : attempts a = .err := by
      have := herr 0 (Nat.succ_pos n)
      simpa using this
    cases remaining with
    | zero => omega
    | succ r =>
      have herr2 : ∀ k, k < n → attempts (a + 1 + k) = .err := by
        intro k hk
        have := herr (k + 1) (by omega)
        rwa [show a + (k + 1) = a + 1 + k by omega] at this
      have hok2 : attempts (a + 1 + n) = .ok doc := by
        rwa [show a + (n + 1) = a + 1 + n by omega] at hok
      have := ih r (a + 1) doc (by omega) herr2 hok2
      rw [show a + (n + 1) + 1 = (a + 1) + n + 1 by omega]
      simpa [tryFetchingGo, ha] using this

/-- With an always-failing store, the part_001 while loop makes exactly
`retries` attempts and surfaces the error on the last of them. -/
theorem fetchLoopV1Go_allErr (attempts : Nat → AttemptResult)
    (h : ∀ k, attempts k = .err) (retries : Nat) :
    ∀ remaining attempt, attempt + remaining = retries → 0 < remaining →
      fetchLoopV1Go attempts retries attempt remaining = (.storeError, retries) := by
  intro remaining
  induction remaining with
  | zero => intro a _ h0; omega
  | succ r ih =>
    intro a hsum _
    by_cases hg : a + 1 = retries
    · have : (a + 1 == retries) = true := by simpa using hg
      simp [fetchLoopV1Go, h a, this, hg]
    · have hgf : (a + 1 == retries) = false := by simpa using hg
      have hr : 0 < r := by omega
      simpa [fetchLoopV1Go, h a, hgf] using ih (a + 1) (by omega) hr

/-- The part_001 while loop returns as soon as an attempt within the budget
succeeds, after exactly that many get calls. -/
theorem fetchLoopV1Go_firstOk (attempts : Nat → AttemptResult) (retries : Nat) :
    ∀ j remaining attempt doc, attempt + remaining = retries → j < remaining →
      (∀ k, k < j → attempts (attempt + k) = .err) →
      attempts (attempt + j) = .ok doc →
      fetchLoopV1Go attempts retries attempt remaining = (.success doc, attempt + j + 1) := by
  intro j
  induction j with
  | zero =>
    intro remaining a doc hsum hlt _ hok
    simp only [Nat.add_zero] at hok
    cases remaining with
    | zero => omega
    | succ r => simp [fetchLoopV1Go, hok]
  | succ n ih =>
    intro remaining a doc hsum hlt herr hok
    have ha : attempts a = .err := by
      have := herr 0 (Nat.succ_pos n)
      simpa using this
    cases remaining with
    | zero => omega
    | succ r =>
      have hgf : (a + 1 == retries) = false := by
        have : a + 1 ≠ retries := by omega
        simpa using this
      have herr2 : ∀ k, k < n → attempts (a + 1 + k) = .err := by
        intro k hk
        have := herr (k + 1) (by omega)
        rwa [show a + (k + 1) = a + 1 + k by omega] at this
      have hok2 : attempts (a + 1 + n) = .ok doc := by
        rwa [show a + (n + 1) = a + 1 + n by omega] at hok
      have := ih r (a + 1) doc (by omega) (by omega) herr2 hok2
      rw [show a + (n + 1) + 1 = (a + 1) + n + 1 by omega]
      simpa [fetchLoopV1Go, ha, hgf] using this

/-- Claim C6 counterexample: in the part_001 variant, with the default budget
of 3 and a persistently failing store, the error surfaces after exactly 3 get
calls — the 3rd consecutive failed attempt, not the (3+1)th the claim
requires. -/
theorem retryClaimCounterexample :
    fetchResidentDataWithRetryV1 (fun _ => .err) 3 = (.storeError, 3)
  ∧ (3 : Nat) ≠ 3 + 1 :=
  ⟨rfl, by decide⟩

/-- Claim C6 amended: both retry loops run with no delay between attempts and
never exceed their bound, and return as soon as an attempt within the budget
succeeds; but the variants disagree on the bound — part_000 makes one initial
attempt plus up to `retries` re-attempts, surfacing the store error on the
(retries+1)th consecutive failure, while part_001 makes at most `retries`
total attempts, surfacing the store error on the `retries`th consecutive
failure. -/
theorem retryAmended (retries : Nat) (attempts : Nat → AttemptResult) :
    ((∀ k, attempts k = .err) →
      fetchResidentDataWithRetry attempts retries = (.storeError, retries + 1))
  ∧ (∀ j doc, j ≤ retries → (∀ k, k < j → attempts k = .err) →
      attempts j = .ok doc →
      fetchResidentDataWithRetry attempts retries = (.success doc, j + 1))
  ∧ ((∀ k, attempts k = .err) → 0 < retries →
      fetchResidentDataWithRetryV1 attempts retries = (.storeError, retries))
  ∧ (∀ j doc, j < retries → (∀ k, k < j → attempts k = .err) →
      attempts j = .ok doc →
      fetchResidentDataWithRetryV1 attempts retries = (.success doc, j + 1)) := by
  refine ⟨?_, ?_, ?_, ?_⟩
  · intro h
    simpa using tryFetchingGo_allErr attempts h retries 0
  · intro j doc hle herr hok
    have := tryFetchingGo_firstOk attempts j retries 0 doc hle
      (by simpa using herr) (by simpa using hok)
    simpa using this
  · intro h hr
    exact fetchLoopV1Go_allErr attempts h retries retries 0 (by omega) hr
  · intro j doc hlt herr hok
    have := fetchLoopV1Go_firstOk attempts retries j retries 0 doc (by omega) hlt
      (by simpa using herr) (by simpa using hok)
    simpa using this

/-- Claim C6 amended witness: with budget 3 and a persistently failing store,
part_000 surfaces the error after 4 attempts and part_001 after 3; a schedule
succeeding on its second attempt returns after exactly 2 calls in both. -/
theorem retryAmended_witness :
    fetchResidentDataWithRetry (fun _ => .err) 3 = (.storeError, 3 + 1)
  ∧ fetchResidentDataWithRetryV1 (fun _ => .err) 3 = (.storeError, 3)
  ∧ fetchResidentDataWithRetry
      (fun k => if k == 0 then .err else .ok (some ⟨.bTrue⟩)) 3
      = (.success (some ⟨.bTrue⟩), 1 + 1)
  ∧ fetchResidentDataWithRetryV1
      (fun k => if k == 0 then .err else .ok (some ⟨.bTrue⟩)) 3
      = (.success (some ⟨.bTrue⟩), 1 + 1) :=
  ⟨(retryAmended 3 (fun _ => .err)).1 (fun _ => rfl),
   (retryAmended 3 (fun _ => .err)).2.2.1 (fun _ => rfl) (by decide),
   (retryAmended 3 (fun k => if k == 0 then .err else .ok (some ⟨.bTrue⟩))).2.1
     1 (some ⟨.bTrue⟩) (by decide) (by decide) (by decide),
   (retryAmended 3 (fun k => if k == 0 then .err else .ok (some ⟨.bTrue⟩))).2.2.2
     1 (some ⟨.bTrue⟩) (by decide) (by decide) (by decide)⟩

/-- Claim C7 counterexample: (1) a valid lowercase payload is accepted but
kept verbatim — "deadbeef" is not normalised to "DEADBEEF"; (2) on the Assign
channel there is no ping special case: the payload "ping" fails the UID test
and fires the invalid-UID error log instead of being silently discarded. -/
theorem validateClaimCounterexample :
    validate "deadbeef" = .tag "deadbeef"
  ∧ ("deadbeef" : String) ≠ "DEADBEEF"
  ∧ (assignOnData "ping" (.gok none) true).invalidLogged = true
  ∧ (assignOnData "ping" (.gok none) true).responses = [] := by
  refine ⟨by decide, by decide, rfl, rfl⟩

/-- Claim C7 amended: on the access channels of the part_000 variant, a
payload that trims and lower-cases to "ping" is discarded as a liveness echo;
otherwise the trimmed payload is accepted as a tag exactly when it is eight
characters of [0-9A-Fa-f], and it is kept verbatim — trimmed but never
case-normalised; every other payload is invalid and dropped.  (The Assign
handler, and the part_001 reader handler, have no ping special case.) -/
theorem validateAmended (s : String) :
    (isValidUID (jsTrim s) = true ↔
      (jsTrim s).data.length = 8 ∧ ∀ c ∈ (jsTrim s).data, isHexDigitCI c = true)
  ∧ (jsToLower (jsTrim s) = "ping" → validate s = .ping)
  ∧ (jsToLower (jsTrim s) ≠ "ping" → isValidUID (jsTrim s) = true →
      validate s = .tag (jsTrim s))
  ∧ (jsToLower (jsTrim s) ≠ "ping" → isValidUID (jsTrim s) = false →
      validate s = .invalid) := by
  refine ⟨?_, ?_, ?_, ?_⟩
  · simp [isValidUID, List.all_eq_true]
  · intro h
    simp [validate, isPingResponse, h]
  · intro h hvalid
    simp [validate, isPingResponse, h, hvalid]
  · intro h hvalid
    simp [validate, isPingResponse, h, hvalid]

/-- Claim C7 amended witness: a mixed-case payload with surrounding whitespace
is trimmed and accepted verbatim. -/
theorem validateAmended_witness :
    validate " DeadBeef " = .tag (jsTrim " DeadBeef ")
  ∧ jsTrim " DeadBeef " = "DeadBeef" :=
  ⟨(validateAmended " DeadBeef ").2.2.1 (by decide) (by decide), by decide⟩

/-- Claim C8: on the Assign channel, for every valid tag — an absent resident
document is created with assigned = false and answered "New Resident Created";
a document with assigned = false is answered "UID Not Assigned"; a document
whose assigned field is true or any other truthy value is answered
"Resident Found"; a store failure at the get, and a store failure at the
create, are each answered "Error"; and the handler touches no cooldown state
and performs no audit write. -/
theorem assignPipeline (raw : String) (setOk : Bool)
    (hv : isValidUID (jsTrim raw) = true) :
    (assignOnData raw (.gok none) true
      = ⟨["New Resident Created\n"], some (jsTrim raw, ⟨.bFalse⟩), false⟩)
  ∧ (∀ r : ResidentRecord, r.assigned = .bFalse →
      assignOnData raw (.gok (some r)) setOk
        = ⟨["UID Not Assigned\n"], none, false⟩)
  ∧ (∀ r : ResidentRecord, r.assigned = .bTrue ∨ r.assigned = .otherTruthy →
      assignOnData raw (.gok (some r)) setOk
        = ⟨["Resident Found\n"], none, false⟩)
  ∧ (assignOnData raw .gerr setOk = ⟨["Error\n"], none, false⟩)
  ∧ (assignOnData raw (.gok none) false = ⟨["Error\n"], none, false⟩) := by
  refine ⟨?_, ?_, ?_, ?_, ?_⟩
  · simp [assignOnData, hv]
  · intro r hr
    simp [assignOnData, hv, hr]
  · intro r hr
    rcases hr with hr | hr <;> simp [assignOnData, hv, hr]
  · simp [assignOnData, hv]
  · simp [assignOnData, hv]

/-- Claim C8 witness: the end-to-end enrollment scenario — a brand-new tag
"00000000" creates a record with assigned = false and the channel receives
"New Resident Created". -/
theorem assignPipeline_witness :
    assignOnData "00000000" (.gok none) true
      = ⟨["New Resident Created\n"], some (jsTrim "00000000", ⟨.bFalse⟩), false⟩ :=
  (assignPipeline "00000000" true (by decide)).1

/-- Claim C9 counterexample: scanning "AAAAAAAA" at time 1 and "BBBBBBBB" at
time 2 dequeues both tags while neither resolution has completed (two
resolutions of the same channel in flight, zero responses emitted), and if the
second fetch settles first the responses arrive in the reverse of dequeue
order — the first-dequeued tag ("AAAAAAAA", unknown, "Resident Not Found")
answers after the second ("BBBBBBBB", assigned, "Resident Found"). -/
theorem serializationCounterexample :
    (dispatchRun ⟨[], fun _ => none, [], []⟩
        [.scan "AAAAAAAA" 1, .scan "BBBBBBBB" 2]).inFlight
      = ["AAAAAAAA", "BBBBBBBB"]
  ∧ (dispatchRun ⟨[], fun _ => none, [], []⟩
        [.scan "AAAAAAAA" 1, .scan "BBBBBBBB" 2]).responses = []
  ∧ (dispatchRun ⟨[], fun _ => none, [], []⟩
        [.scan "AAAAAAAA" 1, .scan "BBBBBBBB" 2,
         .fetchDone 1 (.success (some ⟨.bTrue⟩)), .fetchDone 0 (.success none)]).responses
      = ["Resident Found\n", "Resident Not Found\n"] := by
  refine ⟨by decide, by decide, by decide⟩

/-- Claim C9 amended: nothing serialises the pipeline of a channel — an admitted
scan synchronously dequeues its tag and launches its resolution no matter how
many resolutions of that channel are already in flight (so dequeue order is
admission order and the queue never accumulates), and each completed
resolution emits exactly one response in completion order, which store latency
can reorder relative to dequeue order. -/
theorem dispatchAmended (st : DispatchState) (uid : String) (now : Int)
    (hq : st.queue = []) (hv : validate uid = .tag uid)
    (ha : admitCheck ⟨[], st.cooldown⟩ uid now = true) :
    (dispatchStep st (.scan uid now)).queue = []
  ∧ (dispatchStep st (.scan uid now)).inFlight = st.inFlight ++ [uid]
  ∧ (dispatchStep st (.scan uid now)).responses = st.responses
  ∧ (∀ i fetch, i < st.inFlight.length →
      (dispatchStep st (.fetchDone i fetch)).responses
        = st.responses ++ [responseFor fetch]
      ∧ (dispatchStep st (.fetchDone i fetch)).inFlight.length + 1
        = st.inFlight.length) := by
  refine ⟨?_, ?_, ?_, ?_⟩
  · simp [dispatchStep, hv, hq, ha]
  · simp [dispatchStep, hv, hq, ha]
  · simp [dispatchStep, hv, hq, ha]
  · intro i fetch hi
    have hg : ∃ a, st.inFlight.get? i = some a := by
      cases hget : st.inFlight.get? i with
      | none =>
        have := List.get?_eq_none.mp hget
        omega
      | some a => exact ⟨a, rfl⟩
    obtain ⟨a, hget⟩ := hg
    have hget2 : st.inFlight[i]? = some a := by
      rw [← List.get?_eq_getElem?]
      exact hget
    constructor
    · simp [dispatchStep, hget, hget2]
    · simp only [dispatchStep, hget, hget2]
      have := List.length_eraseIdx_of_lt hi
      simp only [this]
      omega

/-- Claim C9 amended witness: with one resolution already in flight, a second
admitted scan is dequeued and launched immediately, joining it in flight. -/
theorem dispatchAmended_witness :
    (dispatchStep ⟨[], fun _ => none, ["CCCCCCCC"], []⟩ (.scan "AAAAAAAA" 1)).inFlight
      = ["CCCCCCCC"] ++ ["AAAAAAAA"] :=
  (dispatchAmended ⟨[], fun _ => none, ["CCCCCCCC"], []⟩ "AAAAAAAA" 1 rfl
    (by decide) (by decide)).2.1
